import Mathlib

/-!
Verification of the istio-rate-limiter rate-limit decision service
(`main.go` of the rate-limit service, the single Go file implementing
`NewRateLimitServer`, `checkRateLimit`, `ShouldRateLimit`,
`NewUpdateWorkerPool`, `UpdateWorker.Start` and `UpdateWorker.flush`).

The embedding below translates the Go source faithfully:
- protobuf messages become plain structures (a Go slice of message
  pointers becomes `List (Option _)`, since slots may be left `nil`);
- the Redis cluster is modelled as an association list from key to a
  counter with an optional absolute expiry instant, with `INCR` and
  `EXPIRE` given their documented Redis semantics;
- the ristretto local cache is an association list from key to the last
  stored count; ristretto admission is best-effort, so each call carries
  a flag saying whether the `Set` was admitted;
- fallible external calls (Redis `INCR`, Redis `EXPIRE`) are driven by a
  per-call outcome record supplied as input;
- Go `int64` counters and limits are represented as `Nat` (all values the
  program produces are non-negative: limits are positive literals and
  counts start at 1 and only increment; Redis `INCR` errors out rather
  than wrap on overflow); the Go `uint32(...)` conversions used when
  populating the response truncate, embedded as `% 2 ^ 32`.
-/

namespace IstioRateLimiter

/-- Envoy wire message: one key/value entry of a rate-limit descriptor
(`ratelimit.RateLimitDescriptor_Entry`). -/
structure RateLimitEntry where
  key : String
  value : String
deriving Repr, DecidableEq

/-- Envoy wire message: a rate-limit descriptor, an ordered list of
key/value entries (`ratelimit.RateLimitDescriptor`). -/
structure RateLimitDescriptor where
  entries : List RateLimitEntry
deriving Repr, DecidableEq

/-- Envoy wire message: the rate-limit request, carrying a domain and a
list of descriptors (`envoy.RateLimitRequest`). -/
structure RateLimitRequest where
  domain : String
  descriptors : List RateLimitDescriptor
deriving Repr, DecidableEq

/-- Envoy response code enum (`envoy.RateLimitResponse_Code`):
UNKNOWN = 0, OK = 1, OVER_LIMIT = 2. -/
inductive Code where
  | UNKNOWN
  | OK
  | OVER_LIMIT
deriving Repr, DecidableEq

/-- Envoy rate-limit unit enum (`envoy.RateLimitResponse_RateLimit_Unit`). -/
inductive RateLimitUnit where
  | UNKNOWN
  | SECOND
  | MINUTE
  | HOUR
  | DAY
deriving Repr, DecidableEq

/-- Envoy wire message `envoy.RateLimitResponse_RateLimit`: the limit
reported back to the caller; `requestsPerUnit` is a `uint32`. -/
structure CurrentLimitMsg where
  requestsPerUnit : Nat
  unit : RateLimitUnit
deriving Repr, DecidableEq

/-- Envoy wire message `envoy.RateLimitResponse_DescriptorStatus`. -/
structure DescriptorStatus where
  code : Code
  currentLimit : Option CurrentLimitMsg
  limitRemaining : Nat
deriving Repr, DecidableEq

/-- Envoy wire message `envoy.RateLimitResponse`. `Statuses` is a Go slice
of pointers allocated with `make(..., len(req.Descriptors))`, so a slot
the handler never assigns stays `nil`; hence `List (Option _)`. -/
structure RateLimitResponse where
  overallCode : Code
  statuses : List (Option DescriptorStatus)
deriving Repr, DecidableEq

/-- Server limit configuration: the fields `ipLimit`, `pathLimit`,
`companyLimit`, `userLimit` and `window` of `RateLimitServer`.
`window` is in seconds (`time.Minute` = 60 s). -/
structure RateLimitConfig where
  ipLimit : Nat
  pathLimit : Nat
  companyLimit : Nat
  userLimit : Nat
  window : Nat
deriving Repr, DecidableEq

/-- Embedding of the configuration part of `NewRateLimitServer`
(main.go lines 186-202).  The Go function assigns the literal constants
`1000, 500, 10000, 100, time.Minute` to the limit fields; it contains no
read of the process environment (the `os` and `strconv` packages are not
even imported, only their leftover import comments remain).  The ambient
process environment is passed as an argument so that statements about
environment sensitivity can be made; the function ignores it, exactly as
the source does. -/
def newRateLimitServerConfig (env : String → Option String) : RateLimitConfig :=
  { ipLimit := 1000
    pathLimit := 500
    companyLimit := 10000
    userLimit := 100
    window := 60 }

/-- The configuration actually produced at startup. -/
def defaultConfig : RateLimitConfig :=
  newRateLimitServerConfig fun _ => none

/-- One Redis key's state: its integer value and, when `EXPIRE` has been
applied, the absolute instant at which it ceases to exist. -/
structure RedisEntry where
  count : Nat
  expiresAt : Option Nat
deriving Repr, DecidableEq

/-- The Redis cluster keyspace, as an association list (first binding for
a key wins). -/
abbrev RedisState := List (String × RedisEntry)

/-- The ristretto local cache contents: counter key to last stored count. -/
abbrev CacheState := List (String × Nat)

/-- Look a key up in the Redis keyspace. -/
def redisLookup (st : RedisState) (k : String) : Option RedisEntry :=
  (st.find? fun p => p.1 == k).map fun p => p.2

/-- Redis semantics: a key with no TTL lives forever; a key with a TTL is
gone from the instant `expiresAt` onwards. -/
def redisLive (now : Nat) (e : RedisEntry) : Bool :=
  match e.expiresAt with
  | none => true
  | some t => now < t

/-- Store a binding, shadowing any previous binding for the key. -/
def redisSet (st : RedisState) (k : String) (e : RedisEntry) : RedisState :=
  (k, e) :: st.filter fun p => !(p.1 == k)

/-- Redis `INCR` semantics: an absent or expired key is (re)created at 1
with no TTL; a live key is incremented in place, keeping its TTL. Returns
the post-increment value. -/
def redisIncr (now : Nat) (st : RedisState) (k : String) : Nat × RedisState :=
  match redisLookup st k with
  | some e =>
    if redisLive now e then
      (e.count + 1, redisSet st k { count := e.count + 1, expiresAt := e.expiresAt })
    else
      (1, redisSet st k { count := 1, expiresAt := none })
  | none => (1, redisSet st k { count := 1, expiresAt := none })

/-- Redis `EXPIRE key secs` semantics: set the key's expiry to
`now + secs` when the key exists; no effect otherwise. -/
def redisExpire (now : Nat) (st : RedisState) (k : String) (secs : Nat) : RedisState :=
  match redisLookup st k with
  | some e => redisSet st k { count := e.count, expiresAt := some (now + secs) }
  | none => st

/-- Ristretto `Get`. -/
def cacheGet (c : CacheState) (k : String) : Option Nat :=
  (c.find? fun p => p.1 == k).map fun p => p.2

/-- Ristretto `Set` when the admission policy admits the entry. -/
def cacheSet (c : CacheState) (k : String) (v : Nat) : CacheState :=
  (k, v) :: c.filter fun p => !(p.1 == k)

/-- Behaviour of the external stores for one `checkRateLimit` call:
whether the Redis `INCR` fails (transport error), whether the Redis
`EXPIRE` fails, and whether the ristretto `Set` admits the entry
(ristretto admission is probabilistic / best-effort). -/
structure CallOutcome where
  incrFails : Bool
  expireFails : Bool
  cacheAdmits : Bool
deriving Repr, DecidableEq

/-- Result value of Go `checkRateLimit`, which returns
`(int, int, error)`.  On success the source returns
`int(count), int(limit), nil` — the post-increment count FIRST and the
configured limit SECOND (main.go line 411); on failure it returns
`0, 0, err` and the caller reads only the error. -/
inductive CheckRet where
  | ok (count : Nat) (limit : Nat)
  | err (msg : String)
deriving Repr, DecidableEq

/-- Full effect of one Go `checkRateLimit` call: the returned triple, the
updated cache and Redis states, how many times
`redis_errors_total{operation="incr"}` was incremented, and whether the
`EXPIRE` command was issued. -/
structure CheckResult where
  ret : CheckRet
  cache : CacheState
  redis : RedisState
  redisIncrErrors : Nat
  expireCalled : Bool
deriving Repr, DecidableEq

/-- One step of the key-selection loop of `checkRateLimit`
(main.go lines 365-380): a `switch entry.Key` that, on each recognized
key, overwrites both the pending counter key and the pending limit, and
leaves them untouched otherwise.  The accumulator is the pair
`(key, limit)`, initially `("", 0)`. -/
def entryStep (cfg : RateLimitConfig) (acc : String × Nat) (e : RateLimitEntry) :
    String × Nat :=
  if e.key = "remote_address" then ("ip:" ++ e.value, cfg.ipLimit)
  else if e.key = "path" then ("path:" ++ e.value, cfg.pathLimit)
  else if e.key = "company_id" then ("company:" ++ e.value, cfg.companyLimit)
  else if e.key = "user_id" then ("user:" ++ e.value, cfg.userLimit)
  else acc

/-- The key-selection loop of `checkRateLimit`: scan the descriptor
entries in order, each recognized entry overwriting `(key, limit)`. -/
def selectKeyLimit (cfg : RateLimitConfig) (entries : List RateLimitEntry) :
    String × Nat :=
  entries.foldl (entryStep cfg) ("", 0)

/-- Whether a descriptor entry has one of the four recognized keys. -/
def isRecognized (e : RateLimitEntry) : Bool :=
  e.key == "remote_address" || e.key == "path" ||
    e.key == "company_id" || e.key == "user_id"

/-- The `(counter key, limit)` pair a recognized entry maps to. -/
def recognizedMapping (cfg : RateLimitConfig) (e : RateLimitEntry) : String × Nat :=
  entryStep cfg ("", 0) e

/-- The Redis branch of `checkRateLimit` (main.go lines 394-411): `INCR`
the key (on transport error, count the `incr` Redis error metric and
return the error); on the first increment (`count == 1`) issue `EXPIRE
key window`, ignoring its result entirely; store the count in the local
cache; and return `(count, limit, nil)` — count first. -/
def redisPath (cfg : RateLimitConfig) (now : Nat) (cache : CacheState)
    (redis : RedisState) (oc : CallOutcome) (key : String) (limit : Nat) :
    CheckResult :=
  if oc.incrFails then
    { ret := CheckRet.err "redis error"
      cache := cache
      redis := redis
      redisIncrErrors := 1
      expireCalled := false }
  else
    let p := redisIncr now redis key
    let count := p.1
    let redis1 := p.2
    let redis2 :=
      if count = 1 then
        if oc.expireFails then redis1 else redisExpire now redis1 key cfg.window
      else redis1
    let cache2 := if oc.cacheAdmits then cacheSet cache key count else cache
    { ret := CheckRet.ok count limit
      cache := cache2
      redis := redis2
      redisIncrErrors := 0
      expireCalled := count == 1 }

/-- Embedding of Go `checkRateLimit` (main.go lines 360-412).  Select
`(key, limit)` by scanning the entries; fail with
`no valid rate limit key found in descriptor` when no recognized entry
was seen; on a local-cache hit with `count >= limit` return immediately
without touching Redis; otherwise take the Redis branch. -/
def checkRateLimit (cfg : RateLimitConfig) (now : Nat) (cache : CacheState)
    (redis : RedisState) (oc : CallOutcome) (d : RateLimitDescriptor) :
    CheckResult :=
  let kl := selectKeyLimit cfg d.entries
  let key := kl.1
  let limit := kl.2
  if key = "" then
    { ret := CheckRet.err "no valid rate limit key found in descriptor"
      cache := cache
      redis := redis
      redisIncrErrors := 0
      expireCalled := false }
  else
    match cacheGet cache key with
    | some count =>
      if limit ≤ count then
        { ret := CheckRet.ok count limit
          cache := cache
          redis := redis
          redisIncrErrors := 0
          expireCalled := false }
      else redisPath cfg now cache redis oc key limit
    | none => redisPath cfg now cache redis oc key limit

/-- Prometheus counters touched by `ShouldRateLimit`:
`rate_limit_requests_total{status="error"}`,
`rate_limit_requests_total{status="success"}` and
`redis_errors_total{operation="incr"}` (increments during this call). -/
structure Metrics where
  requestsError : Nat
  requestsSuccess : Nat
  redisIncrErrors : Nat
deriving Repr, DecidableEq

/-- Accumulator of the per-descriptor loop of `ShouldRateLimit`.
`droppedStatuses` records the local `status` values that the error path
built (setting `Code = OVER_LIMIT`, main.go line 338) but then discarded,
because the `continue` on line 339 skips the assignment
`response.Statuses[i] = status` on line 351, so the response slot stays
`nil`. -/
structure LoopAcc where
  cache : CacheState
  redis : RedisState
  errCount : Nat
  redisErrCount : Nat
  statuses : List (Option DescriptorStatus)
  droppedStatuses : List DescriptorStatus

/-- One iteration of the descriptor loop of `ShouldRateLimit`
(main.go lines 323-352).  Note the caller binds the returned triple as
`limit, remaining, err := s.checkRateLimit(descriptor)` (line 331)
although `checkRateLimit` returns the COUNT first and the configured
limit second; so `limit` below is really the post-increment count and
`remaining` is really the configured limit.  With `uint32` truncation,
the populated status therefore carries
`CurrentLimit.RequestsPerUnit = count % 2^32` and
`LimitRemaining = limit % 2^32`, and `Code` is `OK` on every non-error
path. -/
def processDescriptor (cfg : RateLimitConfig) (now : Nat) (oc : CallOutcome)
    (acc : LoopAcc) (d : RateLimitDescriptor) : LoopAcc :=
  let r := checkRateLimit cfg now acc.cache acc.redis oc d
  match r.ret with
  | CheckRet.err _ =>
    { cache := r.cache
      redis := r.redis
      errCount := acc.errCount + 1
      redisErrCount := acc.redisErrCount + r.redisIncrErrors
      statuses := acc.statuses ++ [none]
      droppedStatuses := acc.droppedStatuses ++
        [{ code := Code.OVER_LIMIT, currentLimit := none, limitRemaining := 0 }] }
  | CheckRet.ok count cfgLimit =>
    let status : DescriptorStatus :=
      if 0 < count then
        { code := Code.OK
          currentLimit := some
            { requestsPerUnit := count % 2 ^ 32, unit := RateLimitUnit.MINUTE }
          limitRemaining := cfgLimit % 2 ^ 32 }
      else
        { code := Code.OK, currentLimit := none, limitRemaining := 0 }
    { cache := r.cache
      redis := r.redis
      errCount := acc.errCount
      redisErrCount := acc.redisErrCount
      statuses := acc.statuses ++ [some status]
      droppedStatuses := acc.droppedStatuses }

/-- Full effect of one Go `ShouldRateLimit` call: the response handed to
gRPC (the Go method returns `(response, nil)` unconditionally, so the
RPC always succeeds with this response), the updated cache and Redis
states, the metric increments, the `status` values the error path built
and discarded, and the list of updates the handler sent on the server's
`updateQueue` channel. -/
structure HandlerResult where
  response : RateLimitResponse
  cache : CacheState
  redis : RedisState
  metrics : Metrics
  droppedStatuses : List DescriptorStatus
  enqueued : List RateLimitRequest
deriving Repr

/-- Embedding of Go `ShouldRateLimit` (main.go lines 298-357).  The
response is initialized with `OverallCode = OK` and a `Statuses` slice of
`nil` slots (line 317-320); the loop fills the slots as in
`processDescriptor`; no statement in the method ever writes
`OverallCode` again, and no statement sends on `s.updateQueue` or on the
worker pool's queue, so `enqueued` is `[]` on every path.  The oracle
gives the external-call outcome for the descriptor at each position. -/
def shouldRateLimit (cfg : RateLimitConfig) (now : Nat) (cache : CacheState)
    (redis : RedisState) (oracle : Nat → CallOutcome) (req : RateLimitRequest) :
    HandlerResult :=
  let acc0 : LoopAcc :=
    { cache := cache, redis := redis, errCount := 0, redisErrCount := 0,
      statuses := [], droppedStatuses := [] }
  let acc := req.descriptors.enum.foldl
    (fun a p => processDescriptor cfg now (oracle p.1) a p.2) acc0
  { response := { overallCode := Code.OK, statuses := acc.statuses }
    cache := acc.cache
    redis := acc.redis
    metrics :=
      { requestsError := acc.errCount
        requestsSuccess := 1
        redisIncrErrors := acc.redisErrCount }
    droppedStatuses := acc.droppedStatuses
    enqueued := [] }

/-- Size of the update worker pool started by `NewRateLimitServer`
(main.go line 185): ten workers, each draining the shared queue. -/
def updateWorkerPoolSize : Nat := 10

/-- Capacity of the update queues (`make(chan ..., 10000)`,
main.go lines 191 and 210). -/
def updateQueueCapacity : Nat := 10000

/-- The key-selection step treats recognized entries by their fixed
mapping and ignores everything else. -/
theorem entryStep_eq_ite (cfg : RateLimitConfig) (acc : String × Nat)
    (e : RateLimitEntry) :
    entryStep cfg acc e =
      if isRecognized e then recognizedMapping cfg e else acc := by
  by_cases h1 : e.key = "remote_address" <;> by_cases h2 : e.key = "path" <;>
    by_cases h3 : e.key = "company_id" <;> by_cases h4 : e.key = "user_id" <;>
    simp [entryStep, isRecognized, recognizedMapping, h1, h2, h3, h4]

/-- Folding the key-selection step over the entries yields the mapping of
the last recognized entry (the first recognized entry of the reversed
list), or the initial accumulator when none is recognized. -/
theorem foldl_entryStep (cfg : RateLimitConfig) (entries : List RateLimitEntry) :
    ∀ init : String × Nat,
      entries.foldl (entryStep cfg) init =
        ((entries.reverse.find? isRecognized).map (recognizedMapping cfg)).getD init := by
  induction entries using List.reverseRecOn with
  | nil => intro init; simp
  | append_singleton l e ih =>
    intro init
    rw [List.foldl_append, List.foldl_cons, List.foldl_nil, entryStep_eq_ite,
      List.reverse_append]
    by_cases h : isRecognized e
    · simp [h, List.find?_cons_of_pos]
    · simp only [List.reverse_cons, List.reverse_nil, List.nil_append,
        List.singleton_append]
      rw [List.find?_cons_of_neg _ (by simpa using h)]
      simp [h, ih]

/-- Looking up the key just stored finds the stored entry. -/
theorem redisLookup_set_self (st : RedisState) (k : String) (e : RedisEntry) :
    redisLookup (redisSet st k e) k = some e := by
  unfold redisLookup redisSet
  rw [List.find?_cons_of_pos _ (by simp)]
  rfl

/-- C1: the claim says a descriptor whose admission-cache hit shows
`count >= limit`, or whose post-increment count exceeds the limit, gets
status `OVER_LIMIT`.  The code never does: `ShouldRateLimit` sets a
status code only on the error path (and even that status is discarded).
Concretely, with the cache holding `ip:10.0.0.2` at the configured limit
1000 the descriptor comes back `OK` (with the count in
`CurrentLimit.RequestsPerUnit`), and with the Redis counter already at
1000 the post-increment count 1001 also comes back `OK`. -/
theorem shouldRateLimit_over_limit_still_ok :
    ((shouldRateLimit defaultConfig 0 [("ip:10.0.0.2", 1000)] []
        (fun _ => ⟨false, false, true⟩)
        { domain := "t"
          descriptors := [{ entries := [{ key := "remote_address", value := "10.0.0.2" }] }] }).response
      = { overallCode := Code.OK
          statuses := [some
            { code := Code.OK
              currentLimit := some { requestsPerUnit := 1000, unit := RateLimitUnit.MINUTE }
              limitRemaining := 1000 }] })
    ∧ ((shouldRateLimit defaultConfig 0 []
        [("ip:10.0.0.2", { count := 1000, expiresAt := none })]
        (fun _ => ⟨false, false, true⟩)
        { domain := "t"
          descriptors := [{ entries := [{ key := "remote_address", value := "10.0.0.2" }] }] }).response.statuses
      = [some
          { code := Code.OK
            currentLimit := some { requestsPerUnit := 1001, unit := RateLimitUnit.MINUTE }
            limitRemaining := 1000 }])
    ∧ Code.OK ≠ Code.OVER_LIMIT := by
  decide

/-- C2: the claim says `OverallCode` is `OK` iff every descriptor status
is `OK`, and `OVER_LIMIT` whenever some status is not `OK`.  The code
initializes `OverallCode` to `OK` and never writes it again: it is `OK`
on every input.  In particular a request whose only descriptor fails
(its status slot stays `nil`, hence not `OK`) still reports overall
`OK`. -/
theorem shouldRateLimit_overall_code_constant :
    (∀ (cfg : RateLimitConfig) (now : Nat) (cache : CacheState)
        (redis : RedisState) (oracle : Nat → CallOutcome) (req : RateLimitRequest),
      (shouldRateLimit cfg now cache redis oracle req).response.overallCode = Code.OK)
    ∧ ((shouldRateLimit defaultConfig 0 [] [] (fun _ => ⟨false, false, true⟩)
        { domain := "t", descriptors := [{ entries := [{ key := "foo", value := "bar" }] }] }).response
      = { overallCode := Code.OK, statuses := [none] })
    ∧ Code.OK ≠ Code.OVER_LIMIT := by
  refine ⟨fun cfg now cache redis oracle req => rfl, by decide, by decide⟩

/-- C3: the claim says a populated status carries
`CurrentLimit.RequestsPerUnit = L` (the configured limit) and
`LimitRemaining = max 0 (L - c)` for post-increment count `c`.  The code
binds the returned `(count, limit)` pair as `(limit, remaining)`
(main.go line 331 against line 411), so the first request for a fresh
key (`c = 1`, `L = 1000`) is populated with `RequestsPerUnit = 1` and
`LimitRemaining = 1000` instead of `RequestsPerUnit = 1000` and
`LimitRemaining = 999`. -/
theorem shouldRateLimit_swapped_limit_fields :
    ((shouldRateLimit defaultConfig 0 [] [] (fun _ => ⟨false, false, true⟩)
        { domain := "t"
          descriptors := [{ entries := [{ key := "remote_address", value := "10.0.0.1" }] }] }).response.statuses
      = [some
          { code := Code.OK
            currentLimit := some { requestsPerUnit := 1, unit := RateLimitUnit.MINUTE }
            limitRemaining := 1000 }])
    ∧ (1 : Nat) ≠ 1000 ∧ (1000 : Nat) ≠ 999 := by
  decide

/-- C4: on a Redis `INCR` failure the claim expects the descriptor's
status in the returned response to be `OVER_LIMIT`, the
`redis_errors_total{operation="incr"}` counter incremented, and a
non-error gRPC result.  The code does increment the error counter and
does return success, and its error path builds a local status with
`Code = OVER_LIMIT` — but the `continue` skips the assignment into the
response, so the response's slot for the descriptor stays `nil`. -/
theorem shouldRateLimit_redis_error_status_dropped :
    ((shouldRateLimit defaultConfig 0 [] [] (fun _ => ⟨true, false, true⟩)
        { domain := "t"
          descriptors := [{ entries := [{ key := "remote_address", value := "1.2.3.4" }] }] }).response.statuses
      = [none])
    ∧ ((shouldRateLimit defaultConfig 0 [] [] (fun _ => ⟨true, false, true⟩)
        { domain := "t"
          descriptors := [{ entries := [{ key := "remote_address", value := "1.2.3.4" }] }] }).metrics
      = { requestsError := 1, requestsSuccess := 1, redisIncrErrors := 1 })
    ∧ ((shouldRateLimit defaultConfig 0 [] [] (fun _ => ⟨true, false, true⟩)
        { domain := "t"
          descriptors := [{ entries := [{ key := "remote_address", value := "1.2.3.4" }] }] }).droppedStatuses
      = [{ code := Code.OVER_LIMIT, currentLimit := none, limitRemaining := 0 }]) := by
  decide

/-- C8: the claim says the limits and window come from compiled-in
defaults overridable by `IP_RATE_LIMIT`, `COMPANY_RATE_LIMIT`,
`PATH_RATE_LIMIT`, `USER_RATE_LIMIT` and `RATE_LIMIT_WINDOW`.
`NewRateLimitServer` assigns the literal constants and reads no
environment variable at all: the configuration is the same for every
environment, and setting `IP_RATE_LIMIT=5` still yields `ipLimit =
1000`. -/
theorem newRateLimitServer_ignores_environment :
    (∀ env : String → Option String,
      newRateLimitServerConfig env = newRateLimitServerConfig fun _ => none)
    ∧ (newRateLimitServerConfig
        (fun k => if k = "IP_RATE_LIMIT" then some "5" else none)).ipLimit = 1000
    ∧ (1000 : Nat) ≠ 5
    ∧ newRateLimitServerConfig (fun _ => none)
        = { ipLimit := 1000, pathLimit := 500, companyLimit := 10000,
            userLimit := 100, window := 60 } := by
  exact ⟨fun _ => rfl, rfl, by decide, rfl⟩

/-- C9: the claim says every processed request has a deferred update
enqueued onto the update batcher's queue.  No statement of
`ShouldRateLimit` (or of anything else in the file) sends on
`s.updateQueue` or on the worker pool's queue, so the set of updates the
handler enqueues is empty on every input, and the batcher's workers
never receive anything derived from a request. -/
theorem shouldRateLimit_enqueues_nothing :
    (∀ (cfg : RateLimitConfig) (now : Nat) (cache : CacheState)
        (redis : RedisState) (oracle : Nat → CallOutcome) (req : RateLimitRequest),
      (shouldRateLimit cfg now cache redis oracle req).enqueued = [])
    ∧ (shouldRateLimit defaultConfig 0 [] [] (fun _ => ⟨false, false, true⟩)
        { domain := "t"
          descriptors := [{ entries := [{ key := "remote_address", value := "1.2.3.4" }] }] }).enqueued
      = [] := by
  exact ⟨fun cfg now cache redis oracle req => rfl, rfl⟩

/-- A descriptor with no recognized entry leaves the key-selection
accumulator at its initial value `("", 0)`. -/
theorem selectKeyLimit_no_recognized (cfg : RateLimitConfig)
    (entries : List RateLimitEntry) (h : ∀ e ∈ entries, isRecognized e = false) :
    selectKeyLimit cfg entries = ("", 0) := by
  unfold selectKeyLimit
  rw [foldl_entryStep]
  have hnone : entries.reverse.find? isRecognized = none := by
    rw [List.find?_eq_none]
    intro x hx
    simp [h x (List.mem_reverse.mp hx)]
  rw [hnone]
  rfl

/-- C5 (amended): a descriptor containing no recognized key makes
`checkRateLimit` fail with `no valid rate limit key found in
descriptor` and increments `rate_limit_requests_total{status="error"}`,
but the descriptor's slot in the wire response is left `nil` (the error
path's `continue` skips the assignment into `response.Statuses`), so the
response carries no status — not an `OK` one — for that descriptor. -/
theorem checkRateLimit_unrecognized_descriptor (cfg : RateLimitConfig) (now : Nat)
    (cache : CacheState) (redis : RedisState) (oc : CallOutcome)
    (oracle : Nat → CallOutcome) (dom : String) (d : RateLimitDescriptor)
    (h : ∀ e ∈ d.entries, isRecognized e = false) :
    (checkRateLimit cfg now cache redis oc d).ret
        = CheckRet.err "no valid rate limit key found in descriptor"
    ∧ (shouldRateLimit cfg now cache redis oracle
        { domain := dom, descriptors := [d] }).metrics.requestsError = 1
    ∧ (shouldRateLimit cfg now cache redis oracle
        { domain := dom, descriptors := [d] }).response.statuses = [none] := by
  have hsel := selectKeyLimit_no_recognized cfg d.entries h
  have hck : ∀ oc2 : CallOutcome, checkRateLimit cfg now cache redis oc2 d
      = { ret := CheckRet.err "no valid rate limit key found in descriptor"
          cache := cache, redis := redis, redisIncrErrors := 0
          expireCalled := false } := by
    intro oc2
    unfold checkRateLimit
    rw [hsel]
    rfl
  have henum : ([d] : List RateLimitDescriptor).enum = [(0, d)] := rfl
  refine ⟨by rw [hck oc], ?_, ?_⟩ <;>
    simp [shouldRateLimit, henum, processDescriptor, hck]

/-- Witness for C5's amended theorem at the concrete descriptor
`[(foo, bar)]`. -/
theorem checkRateLimit_unrecognized_descriptor_witness :
    (checkRateLimit defaultConfig 0 [] [] ⟨false, false, true⟩
        { entries := [{ key := "foo", value := "bar" }] }).ret
      = CheckRet.err "no valid rate limit key found in descriptor"
    ∧ (shouldRateLimit defaultConfig 0 [] [] (fun _ => ⟨false, false, true⟩)
        { domain := "w"
          descriptors := [{ entries := [{ key := "foo", value := "bar" }] }] }).metrics.requestsError
      = 1 := by
  have h := checkRateLimit_unrecognized_descriptor defaultConfig 0 [] []
      ⟨false, false, true⟩ (fun _ => ⟨false, false, true⟩) "w"
      { entries := [{ key := "foo", value := "bar" }] } (by decide)
  exact ⟨h.1, h.2.1⟩

/-- C5 counterexample: on the unrecognized descriptor `[(foo, bar)]` the
response's only status slot is `nil`; in particular it does not carry an
`OK` status, contradicting the claim's wire behaviour. -/
theorem unrecognized_descriptor_status_not_ok :
    ((shouldRateLimit defaultConfig 0 [] [] (fun _ => ⟨false, false, true⟩)
        { domain := "c"
          descriptors := [{ entries := [{ key := "foo", value := "bar" }] }] }).response.statuses
      = [none])
    ∧ ¬ ∃ s : DescriptorStatus,
        (shouldRateLimit defaultConfig 0 [] [] (fun _ => ⟨false, false, true⟩)
          { domain := "c"
            descriptors := [{ entries := [{ key := "foo", value := "bar" }] }] }).response.statuses
        = [some s] := by
  have heq : (shouldRateLimit defaultConfig 0 [] [] (fun _ => ⟨false, false, true⟩)
      { domain := "c"
        descriptors := [{ entries := [{ key := "foo", value := "bar" }] }] }).response.statuses
      = [none] := by decide
  refine ⟨heq, ?_⟩
  rintro ⟨s, hs⟩
  rw [heq] at hs
  simp at hs

/-- C6: the counter key and limit are selected by scanning the entries
in order under the fixed mapping, and when several recognized keys occur
the last-scanned one (the first recognized entry of the reversed list)
determines both; at the configuration built by `NewRateLimitServer` the
mapping is `remote_address` to `ip:<v>` with limit 1000, `path` to
`path:<v>` with limit 500, `company_id` to `company:<v>` with limit
10000, and `user_id` to `user:<v>` with limit 100. -/
theorem selectKeyLimit_last_recognized_wins (entries : List RateLimitEntry)
    (e : RateLimitEntry) (h : entries.reverse.find? isRecognized = some e) :
    selectKeyLimit defaultConfig entries = recognizedMapping defaultConfig e
    ∧ (∀ v, recognizedMapping defaultConfig { key := "remote_address", value := v }
        = ("ip:" ++ v, 1000))
    ∧ (∀ v, recognizedMapping defaultConfig { key := "path", value := v }
        = ("path:" ++ v, 500))
    ∧ (∀ v, recognizedMapping defaultConfig { key := "company_id", value := v }
        = ("company:" ++ v, 10000))
    ∧ (∀ v, recognizedMapping defaultConfig { key := "user_id", value := v }
        = ("user:" ++ v, 100)) := by
  refine ⟨?_, fun v => rfl, fun v => rfl, fun v => rfl, fun v => rfl⟩
  unfold selectKeyLimit
  rw [foldl_entryStep, h]
  rfl

/-- Witness for C6 on a descriptor carrying both a `remote_address` and
a later `user_id` entry: the user dimension wins. -/
theorem selectKeyLimit_last_recognized_wins_witness :
    selectKeyLimit defaultConfig
        [{ key := "remote_address", value := "a" }, { key := "user_id", value := "u" }]
      = ("user:u", 100) := by
  have h := selectKeyLimit_last_recognized_wins
      [{ key := "remote_address", value := "a" }, { key := "user_id", value := "u" }]
      { key := "user_id", value := "u" } (by decide)
  rw [h.1]
  decide

/-- Shape of the Redis branch when the `INCR` succeeds. -/
theorem redisPath_success (cfg : RateLimitConfig) (now : Nat) (cache : CacheState)
    (redis : RedisState) (oc : CallOutcome) (key : String) (limit : Nat)
    (hincr : oc.incrFails = false) :
    redisPath cfg now cache redis oc key limit
      = { ret := CheckRet.ok (redisIncr now redis key).1 limit
          cache := if oc.cacheAdmits then
              cacheSet cache key (redisIncr now redis key).1
            else cache
          redis := if (redisIncr now redis key).1 = 1 then
              (if oc.expireFails then (redisIncr now redis key).2
               else redisExpire now (redisIncr now redis key).2 key cfg.window)
            else (redisIncr now redis key).2
          redisIncrErrors := 0
          expireCalled := (redisIncr now redis key).1 == 1 } := by
  unfold redisPath
  rw [hincr]
  simp

/-- When the selected key misses the cache (or hits under the limit),
`checkRateLimit` takes the Redis branch. -/
theorem checkRateLimit_takes_redis_path (cfg : RateLimitConfig) (now : Nat)
    (cache : CacheState) (redis : RedisState) (oc : CallOutcome)
    (d : RateLimitDescriptor) (key : String) (limit : Nat)
    (hsel : selectKeyLimit cfg d.entries = (key, limit))
    (hkey : ¬ key = "")
    (hmiss : ∀ c, cacheGet cache key = some c → c < limit) :
    checkRateLimit cfg now cache redis oc d
      = redisPath cfg now cache redis oc key limit := by
  unfold checkRateLimit
  rw [hsel]
  show (if key = "" then _ else _) = _
  rw [if_neg hkey]
  cases hc : cacheGet cache key with
  | none => rfl
  | some c =>
    have hlt := hmiss c hc
    show (if limit ≤ c then _ else _) = _
    rw [if_neg (by omega)]

/-- Expiring the key just stored rewrites its expiry instant. -/
theorem redisExpire_set_self (now : Nat) (st : RedisState) (k : String)
    (e : RedisEntry) (w : Nat) :
    redisExpire now (redisSet st k e) k w
      = redisSet (redisSet st k e) k { count := e.count, expiresAt := some (now + w) } := by
  unfold redisExpire
  rw [redisLookup_set_self]

/-- C7: the `EXPIRE` issued by `checkRateLimit`'s Redis branch fires
exactly when the post-increment count is 1.  On a live key the count
goes from `c` to `c + 1` and the stored expiry is untouched unless the
count became 1; on an absent or expired key the count is recreated at 1
and the expiry is set to `now + window`.  Moreover, in the Redis model
an increment performed at or after a key's expiry instant returns 1
(windowed reset), and the window configured by `NewRateLimitServer` is
60 seconds. -/
theorem checkRateLimit_expire_on_first_increment (cfg : RateLimitConfig)
    (now : Nat) (cache : CacheState) (redis : RedisState) (oc : CallOutcome)
    (d : RateLimitDescriptor) (key : String) (limit : Nat)
    (hsel : selectKeyLimit cfg d.entries = (key, limit))
    (hkey : ¬ key = "")
    (hmiss : ∀ c, cacheGet cache key = some c → c < limit)
    (hincr : oc.incrFails = false)
    (hexp : oc.expireFails = false) :
    (∀ e : RedisEntry, redisLookup redis key = some e → redisLive now e = true →
      redisLookup (checkRateLimit cfg now cache redis oc d).redis key
          = some { count := e.count + 1
                   expiresAt := if e.count = 0 then some (now + cfg.window) else e.expiresAt }
        ∧ (checkRateLimit cfg now cache redis oc d).ret = CheckRet.ok (e.count + 1) limit
        ∧ (checkRateLimit cfg now cache redis oc d).expireCalled = (e.count == 0))
    ∧ ((∀ e : RedisEntry, redisLookup redis key = some e → redisLive now e = false) →
      redisLookup (checkRateLimit cfg now cache redis oc d).redis key
          = some { count := 1, expiresAt := some (now + cfg.window) }
        ∧ (checkRateLimit cfg now cache redis oc d).ret = CheckRet.ok 1 limit
        ∧ (checkRateLimit cfg now cache redis oc d).expireCalled = true)
    ∧ (∀ (st : RedisState) (k : String) (e2 : RedisEntry) (t now2 : Nat),
        redisLookup st k = some e2 → e2.expiresAt = some t → t ≤ now2 →
        (redisIncr now2 st k).1 = 1)
    ∧ defaultConfig.window = 60 := by
  rw [checkRateLimit_takes_redis_path cfg now cache redis oc d key limit hsel hkey hmiss,
    redisPath_success cfg now cache redis oc key limit hincr]
  rw [hexp]
  refine ⟨?_, ?_, ?_, rfl⟩
  · intro e he hlive
    have hinc : redisIncr now redis key
        = (e.count + 1, redisSet redis key { count := e.count + 1, expiresAt := e.expiresAt }) := by
      unfold redisIncr
      rw [he]
      simp [hlive]
    rw [hinc]
    cases hcnt : e.count with
    | zero => simp [redisExpire_set_self, redisLookup_set_self]
    | succ n => simp [redisLookup_set_self]
  · intro hdead
    have hinc : redisIncr now redis key
        = (1, redisSet redis key { count := 1, expiresAt := none }) := by
      unfold redisIncr
      cases hl : redisLookup redis key with
      | none => rfl
      | some e => simp [hdead e hl]
    rw [hinc]
    simp [redisExpire_set_self, redisLookup_set_self]
  · intro st k e2 t now2 h1 h2 h3
    have hdead : redisLive now2 e2 = false := by
      unfold redisLive
      rw [h2]
      show decide (now2 < t) = false
      simp
      omega
    unfold redisIncr
    rw [h1]
    simp [hdead]

/-- Witness for C7: a fresh `remote_address` descriptor at time 0 leaves
the counter `ip:a` at 1 with expiry instant 60, and the `EXPIRE` call
was issued. -/
theorem checkRateLimit_expire_on_first_increment_witness :
    redisLookup (checkRateLimit defaultConfig 0 [] [] ⟨false, false, true⟩
        { entries := [{ key := "remote_address", value := "a" }] }).redis "ip:a"
      = some { count := 1, expiresAt := some 60 }
    ∧ (checkRateLimit defaultConfig 0 [] [] ⟨false, false, true⟩
        { entries := [{ key := "remote_address", value := "a" }] }).expireCalled = true := by
  have h := checkRateLimit_expire_on_first_increment defaultConfig 0 [] []
      ⟨false, false, true⟩ { entries := [{ key := "remote_address", value := "a" }] }
      "ip:a" 1000 (by decide) (by decide)
      (fun c hc => by simp [cacheGet] at hc) rfl rfl
  have h2 := h.2.1 (fun e he => by simp [redisLookup] at he)
  exact ⟨h2.1, h2.2.2⟩

/-- C10: when the `EXPIRE` after a key's first increment fails, the
failure is ignored: `checkRateLimit` still returns success with the
incremented count 1, the `incr` Redis error metric is not touched, the
`EXPIRE` call was issued but the key is left with no expiry, and a key
without expiry is live at every instant, so it can outlast the window. -/
theorem checkRateLimit_ignores_expire_failure (cfg : RateLimitConfig) (now : Nat)
    (cache : CacheState) (redis : RedisState) (oc : CallOutcome)
    (d : RateLimitDescriptor) (key : String) (limit : Nat)
    (hsel : selectKeyLimit cfg d.entries = (key, limit))
    (hkey : ¬ key = "")
    (hmiss : cacheGet cache key = none)
    (hincr : oc.incrFails = false)
    (hexp : oc.expireFails = true)
    (hfresh : redisLookup redis key = none) :
    (checkRateLimit cfg now cache redis oc d).ret = CheckRet.ok 1 limit
    ∧ (checkRateLimit cfg now cache redis oc d).redisIncrErrors = 0
    ∧ (checkRateLimit cfg now cache redis oc d).expireCalled = true
    ∧ redisLookup (checkRateLimit cfg now cache redis oc d).redis key
        = some { count := 1, expiresAt := none }
    ∧ (∀ t, redisLive t { count := 1, expiresAt := none } = true) := by
  have hinc : redisIncr now redis key
      = (1, redisSet redis key { count := 1, expiresAt := none }) := by
    unfold redisIncr
    rw [hfresh]
  rw [checkRateLimit_takes_redis_path cfg now cache redis oc d key limit hsel hkey
      (fun c hc => by rw [hmiss] at hc; exact absurd hc (by simp)),
    redisPath_success cfg now cache redis oc key limit hincr]
  rw [hexp, hinc]
  exact ⟨rfl, rfl, rfl, redisLookup_set_self _ _ _, fun t => rfl⟩

/-- Witness for C10 at a fresh `remote_address` descriptor with a
failing `EXPIRE`: the call reports count 1 with limit 1000 and the key
is stored without expiry. -/
theorem checkRateLimit_ignores_expire_failure_witness :
    (checkRateLimit defaultConfig 0 [] [] ⟨false, true, true⟩
        { entries := [{ key := "remote_address", value := "a" }] }).ret
      = CheckRet.ok 1 1000
    ∧ redisLookup (checkRateLimit defaultConfig 0 [] [] ⟨false, true, true⟩
        { entries := [{ key := "remote_address", value := "a" }] }).redis "ip:a"
      = some { count := 1, expiresAt := none } := by
  have h := checkRateLimit_ignores_expire_failure defaultConfig 0 [] []
      ⟨false, true, true⟩ { entries := [{ key := "remote_address", value := "a" }] }
      "ip:a" 1000 (by decide) (by decide) rfl rfl rfl rfl
  exact ⟨h.1, h.2.2.2.1⟩

end IstioRateLimiter
